import Mathlib

/-!
Shallow embedding of the geolocation and routing subsystem of the
hospital / organ-transplant backend (files `geolocation.py` and
`routing_service.py`).

Modelling conventions:
* Python floats are modelled as exact rationals (`ℚ`); the wall clock
  (`datetime.now()`) is an explicit integer parameter `now` measured in
  seconds, threaded through every function that reads the clock.
* `int(x)` (truncation toward zero) is `pyInt`; `round(x, 2)`
  (banker's rounding to two decimals) is `pyRound2`.
* The trigonometric haversine computation is not executable over `ℝ`,
  so the routing/filtering functions take the distance computation as an
  abstract parameter `hav : ℚ → ℚ → ℚ → ℚ → ℚ` (latitude₁, longitude₁,
  latitude₂, longitude₂ ↦ kilometres); the actual real-valued formula is
  embedded separately as `haversine_distance` for the symmetry claim.
* Python dictionaries (the navigation-session table) are association
  lists with Python's assignment semantics (`table_set`: replace in
  place if the key is present, else append).
-/

namespace OrganGeo

/-- Python `int(x)`: truncation toward zero. -/
def pyInt (q : ℚ) : ℤ := if 0 ≤ q then ⌊q⌋ else ⌈q⌉

/-- Round a rational to the nearest integer, ties to the even integer
(Python's `round` semantics). -/
def roundHalfEven (q : ℚ) : ℤ :=
  if q - ⌊q⌋ < 1/2 then ⌊q⌋
  else if 1/2 < q - ⌊q⌋ then ⌊q⌋ + 1
  else if ⌊q⌋ % 2 = 0 then ⌊q⌋ else ⌊q⌋ + 1

/-- Python `round(x, 2)`. -/
def pyRound2 (q : ℚ) : ℚ := (roundHalfEven (q * 100) : ℚ) / 100

/-- Embeds `geolocation.Location` (the optional `address` field is never read
by the functions under study and is omitted). -/
structure Location where
  latitude : ℚ
  longitude : ℚ
deriving DecidableEq, Repr

/-- Embeds `geolocation.DistanceResult` (the optional `route_summary` field is
never set by the code under study and is omitted). -/
structure DistanceResult where
  distance_km : ℚ
  distance_miles : ℚ
  estimated_travel_time_minutes : ℤ
deriving DecidableEq, Repr

/-- The `Hospital` record supplied by the persistence layer: only the
coordinates are read by the geolocation core. -/
structure Hospital where
  id : ℕ
  name : String
  latitude : ℚ
  longitude : ℚ
deriving DecidableEq, Repr

/-- Embeds `math.radians`. -/
noncomputable def radians (x : ℝ) : ℝ := x * Real.pi / 180

/-- Embeds `GeolocationService.haversine_distance`, over the reals
(Earth radius 6371.0 km). -/
noncomputable def haversine_distance (lat1 lon1 lat2 lon2 : ℝ) : ℝ :=
  let lat1_rad := radians lat1
  let lon1_rad := radians lon1
  let lat2_rad := radians lat2
  let lon2_rad := radians lon2
  let dlat := lat2_rad - lat1_rad
  let dlon := lon2_rad - lon1_rad
  let a := Real.sin (dlat/2) ^ 2 +
    Real.cos lat1_rad * Real.cos lat2_rad * Real.sin (dlon/2) ^ 2
  let c := 2 * Real.arcsin (Real.sqrt a)
  6371.0 * c

/-- Embeds `GeolocationService.calculate_distance`, parametric in the haversine
computation `hav`.  Travel time always uses the fixed 50 km/h speed. -/
def calculate_distance (hav : ℚ → ℚ → ℚ → ℚ → ℚ)
    (location1 location2 : Location) : DistanceResult :=
  let distance_km := hav location1.latitude location1.longitude
    location2.latitude location2.longitude
  { distance_km := distance_km
    distance_miles := distance_km * 0.621371
    estimated_travel_time_minutes := pyInt (distance_km / 50 * 60) }

/-- Embeds `GeolocationService.find_nearest_hospitals`: the loop appends the
pair exactly when the distance is within `max_distance_km`, then the
list is sorted by `distance_km` with Python's stable sort. -/
def find_nearest_hospitals (hav : ℚ → ℚ → ℚ → ℚ → ℚ)
    (user_latitude user_longitude : ℚ) (hospitals : List Hospital)
    (max_distance_km : ℚ) : List (Hospital × DistanceResult) :=
  let user_location : Location := ⟨user_latitude, user_longitude⟩
  let nearby_hospitals := hospitals.filterMap (fun hospital =>
    let hospital_location : Location := ⟨hospital.latitude, hospital.longitude⟩
    let distance_result := calculate_distance hav user_location hospital_location
    if distance_result.distance_km ≤ max_distance_km then
      some (hospital, distance_result)
    else none)
  nearby_hospitals.mergeSort
    (fun x y => decide (x.2.distance_km ≤ y.2.distance_km))

/-- The speed table of `GeolocationService.calculate_route_time`
(`{...}.get(transport_mode, 50)`). -/
def speed_kmh (transport_mode : String) : ℚ :=
  match transport_mode with
  | "driving" => 50
  | "walking" => 5
  | "cycling" => 15
  | "public_transport" => 30
  | _ => 50

/-- Embeds `GeolocationService.calculate_route_time` (the only function that
consults the transport-mode speed table). -/
def calculate_route_time (hav : ℚ → ℚ → ℚ → ℚ → ℚ)
    (start_lat start_lon end_lat end_lon : ℚ)
    (transport_mode : String) : DistanceResult :=
  let distance_km := hav start_lat start_lon end_lat end_lon
  { distance_km := distance_km
    distance_miles := distance_km * 0.621371
    estimated_travel_time_minutes :=
      pyInt (distance_km / speed_kmh transport_mode * 60) }

/-- The `OrganAvailability` record: the two attributes read by the
compatibility scorer.  `blood_type` is optional (the code guards on its
truthiness). -/
structure OrganAvailability where
  blood_type : Option String
  condition : String
deriving DecidableEq, Repr

/-- The compatibility dictionary of
`OrganSearchService._is_blood_type_compatible`
(`compatible_pairs.get(recipient, [])`). -/
def compatible_pairs (recipient : String) : List String :=
  match recipient with
  | "O-" => ["O-"]
  | "O+" => ["O-", "O+"]
  | "A-" => ["O-", "A-"]
  | "A+" => ["O-", "O+", "A-", "A+"]
  | "B-" => ["O-", "B-"]
  | "B+" => ["O-", "O+", "B-", "B+"]
  | "AB-" => ["O-", "A-", "B-", "AB-"]
  | "AB+" => ["O-", "O+", "A-", "A+", "B-", "B+", "AB-", "AB+"]
  | _ => []

/-- Embeds `OrganSearchService._is_blood_type_compatible`:
`donor in compatible_pairs.get(recipient, [])`. -/
def is_blood_type_compatible (recipient donor : String) : Bool :=
  donor ∈ compatible_pairs recipient

/-- The condition-bonus dictionary of
`OrganSearchService.get_organ_availability_score`
(`condition_scores.get(condition, 0)`). -/
def condition_scores (condition : String) : ℚ :=
  match condition with
  | "excellent" => 0.2
  | "good" => 0.1
  | "fair" => 0.05
  | _ => 0

/-- Embeds `OrganSearchService.get_organ_availability_score`.  The Python guard
`if user_blood_type and organ_availability.blood_type` is truthiness:
it fails for `None` and for the empty string. -/
def get_organ_availability_score (organ_availability : OrganAvailability)
    (user_blood_type : Option String) : ℚ :=
  let base : ℚ := 0.5
  let score :=
    match user_blood_type, organ_availability.blood_type with
    | some u, some d =>
      if u ≠ "" ∧ d ≠ "" then
        if u = d then base + 0.3
        else if is_blood_type_compatible u d then base + 0.2
        else base
      else base
    | _, _ => base
  min (score + condition_scores organ_availability.condition) 1

/-- Embeds `routing_service.RouteStep`. -/
structure RouteStep where
  instruction : String
  distance_meters : ℚ
  duration_seconds : ℤ
  start_location : ℚ × ℚ
  end_location : ℚ × ℚ
deriving DecidableEq, Repr

/-- Embeds `routing_service.Route`.  `estimated_arrival` is a clock reading in
seconds (`now + timedelta(minutes=total_duration_minutes)`). -/
structure Route where
  start_location : ℚ × ℚ
  end_location : ℚ × ℚ
  total_distance_km : ℚ
  total_duration_minutes : ℤ
  steps : List RouteStep
  transport_mode : String
  estimated_arrival : ℤ
deriving DecidableEq, Repr

/-- Embeds `RoutingService._create_simplified_route_steps`. -/
def create_simplified_route_steps (start_lat start_lon end_lat end_lon
    total_distance_km : ℚ) : List RouteStep :=
  let mid_lat := (start_lat + end_lat) / 2
  let mid_lon := (start_lon + end_lon) / 2
  let step1_distance := total_distance_km * 0.5 * 1000
  let step1_duration := pyInt (step1_distance / 1000 * 60)
  let step2_distance := total_distance_km * 0.5 * 1000
  let step2_duration := pyInt (step2_distance / 1000 * 60)
  [ { instruction := "Start navigation to destination"
      distance_meters := step1_distance
      duration_seconds := step1_duration
      start_location := (start_lat, start_lon)
      end_location := (mid_lat, mid_lon) },
    { instruction := "Continue to hospital destination"
      distance_meters := step2_distance
      duration_seconds := step2_duration
      start_location := (mid_lat, mid_lon)
      end_location := (end_lat, end_lon) } ]

/-- Embeds `RoutingService.get_route`; `now` is the `datetime.now()` reading in
seconds. -/
def get_route (hav : ℚ → ℚ → ℚ → ℚ → ℚ) (now : ℤ)
    (start_lat start_lon end_lat end_lon : ℚ)
    (transport_mode : String) : Route :=
  let distance_result := calculate_distance hav
    ⟨start_lat, start_lon⟩ ⟨end_lat, end_lon⟩
  let steps := create_simplified_route_steps start_lat start_lon
    end_lat end_lon distance_result.distance_km
  { start_location := (start_lat, start_lon)
    end_location := (end_lat, end_lon)
    total_distance_km := distance_result.distance_km
    total_duration_minutes := distance_result.estimated_travel_time_minutes
    steps := steps
    transport_mode := transport_mode
    estimated_arrival :=
      now + 60 * distance_result.estimated_travel_time_minutes }

/-- The fields of the dictionary returned by
`RoutingService.get_emergency_route` that the analysis concerns:
`route.total_distance_km`, `route.total_duration_minutes`,
`route.transport_mode`, `route.is_emergency`, the scaled `steps`, and
`emergency_info.estimated_time_saved` (reported in minutes). -/
structure EmergencyRouteView where
  total_distance_km : ℚ
  total_duration_minutes : ℤ
  transport_mode : String
  is_emergency : Bool
  estimated_time_saved : ℤ
  steps : List RouteStep
deriving DecidableEq, Repr

/-- Embeds `RoutingService.get_emergency_route`. -/
def get_emergency_route (hav : ℚ → ℚ → ℚ → ℚ → ℚ) (now : ℤ)
    (user_lat user_lon hospital_lat hospital_lon : ℚ) : EmergencyRouteView :=
  let route := get_route hav now user_lat user_lon
    hospital_lat hospital_lon "emergency"
  let emergency_duration := pyInt ((route.total_duration_minutes : ℚ) * 0.8)
  { total_distance_km := pyRound2 route.total_distance_km
    total_duration_minutes := emergency_duration
    transport_mode := "emergency"
    is_emergency := true
    estimated_time_saved := route.total_duration_minutes - emergency_duration
    steps := route.steps.map (fun step =>
      { step with duration_seconds := pyInt ((step.duration_seconds : ℚ) * 0.8) }) }

/-- A navigation session (the dictionary stored in
`NavigationService.active_navigations`).  Fields absent before the first
`update`/`end` are `Option`s. -/
structure NavigationSession where
  id : String
  user_id : String
  route : Route
  current_step : ℤ
  started_at : ℤ
  status : String
  last_update : Option ℤ
  current_position : Option (ℚ × ℚ)
  ended_at : Option ℤ
deriving DecidableEq, Repr

/-- The in-memory session dictionary, as an association list. -/
abbrev NavTable := List (String × NavigationSession)

/-- Dictionary lookup (`active_navigations[k]` /
`k in active_navigations`). -/
def table_get (k : String) : NavTable → Option NavigationSession
  | [] => none
  | (k', v) :: t => if k = k' then some v else table_get k t

/-- Dictionary assignment `active_navigations[k] = v`: replace in place
when the key is present, otherwise append. -/
def table_set (k : String) (v : NavigationSession) (t : NavTable) : NavTable :=
  if (table_get k t).isSome then
    t.map (fun p => if p.1 = k then (k, v) else p)
  else t ++ [(k, v)]

/-- The fields of the `start_navigation` response that the analysis
concerns. -/
structure StartResponse where
  navigation_id : String
  total_distance_km : ℚ
  total_duration_minutes : ℤ
  status : String
deriving DecidableEq, Repr

/-- Embeds `NavigationService.start_navigation`; `now` is the `datetime.now()`
clock reading (seconds), which is also the value interpolated into the
session id (`f"nav_{user_id}_{datetime.now().timestamp()}"`). -/
def start_navigation (hav : ℚ → ℚ → ℚ → ℚ → ℚ) (t : NavTable) (now : ℤ)
    (user_id : String) (start_lat start_lon end_lat end_lon : ℚ)
    (transport_mode : String) : StartResponse × NavTable :=
  let navigation_id := "nav_" ++ user_id ++ "_" ++ toString now
  let route := get_route hav now start_lat start_lon end_lat end_lon
    transport_mode
  let navigation_session : NavigationSession :=
    { id := navigation_id
      user_id := user_id
      route := route
      current_step := 0
      started_at := now
      status := "active"
      last_update := none
      current_position := none
      ended_at := none }
  let t' := table_set navigation_id navigation_session t
  ({ navigation_id := navigation_id
     total_distance_km := route.total_distance_km
     total_duration_minutes := route.total_duration_minutes
     status := "started" }, t')

/-- The result of `NavigationService.update_navigation`: either the
error dictionary or the progress-report dictionary. -/
inductive UpdateResult where
  | mkError (error : String)
  | ok (navigation_id : String) (remaining_distance_km : ℚ)
      (estimated_time_remaining_minutes : ℤ) (current_step : ℤ)
      (status : String)
deriving DecidableEq, Repr

/-- Whether an `UpdateResult` is the error payload. -/
def UpdateResult.isErr : UpdateResult → Bool
  | .mkError _ => true
  | .ok _ _ _ _ _ => false

/-- Embeds `NavigationService.update_navigation`. -/
def update_navigation (hav : ℚ → ℚ → ℚ → ℚ → ℚ) (t : NavTable) (now : ℤ)
    (navigation_id : String) (current_lat current_lon : ℚ) :
    UpdateResult × NavTable :=
  match table_get navigation_id t with
  | none => (.mkError "Navigation session not found", t)
  | some session =>
    let route := session.route
    let current_location : Location := ⟨current_lat, current_lon⟩
    let destination : Location := ⟨route.end_location.1, route.end_location.2⟩
    let remaining_distance := calculate_distance hav current_location destination
    let session' := { session with
      last_update := some now
      current_position := some (current_lat, current_lon) }
    let t' := table_set navigation_id session' t
    (.ok navigation_id (pyRound2 remaining_distance.distance_km)
      remaining_distance.estimated_travel_time_minutes
      session.current_step "active", t')

/-- The result of `NavigationService.end_navigation`. -/
inductive EndResult where
  | mkError (error : String)
  | ok (navigation_id : String) (status : String) (duration_minutes : ℤ)
deriving DecidableEq, Repr

/-- Whether an `EndResult` is the error payload. -/
def EndResult.isErr : EndResult → Bool
  | .mkError _ => true
  | .ok _ _ _ => false

/-- Embeds `NavigationService.end_navigation`. -/
def end_navigation (t : NavTable) (now : ℤ) (navigation_id : String) :
    EndResult × NavTable :=
  match table_get navigation_id t with
  | none => (.mkError "Navigation session not found", t)
  | some session =>
    let session' := { session with
      status := "completed"
      ended_at := some now }
    let t' := table_set navigation_id session' t
    (.ok navigation_id "completed"
      (pyInt (((now : ℚ) - (session.started_at : ℚ)) / 60)), t')

/-! Specification-side definitions, written from the specification's
words, against which the code-side definitions above are compared. -/

/-- The (hospital, distance) pairs computed for every input hospital. -/
def computed_pairs (hav : ℚ → ℚ → ℚ → ℚ → ℚ)
    (user_latitude user_longitude : ℚ) (hospitals : List Hospital) :
    List (Hospital × DistanceResult) :=
  hospitals.map (fun h =>
    (h, calculate_distance hav ⟨user_latitude, user_longitude⟩
      ⟨h.latitude, h.longitude⟩))

/-- The computed pairs whose distance is within the radius, in original
input order. -/
def within_radius (hav : ℚ → ℚ → ℚ → ℚ → ℚ)
    (user_latitude user_longitude : ℚ) (hospitals : List Hospital)
    (max_distance_km : ℚ) : List (Hospital × DistanceResult) :=
  (computed_pairs hav user_latitude user_longitude hospitals).filter
    (fun p => decide (p.2.distance_km ≤ max_distance_km))

/-- The eight ABO/Rh blood types. -/
def blood_types : List String :=
  ["O-", "O+", "A-", "A+", "B-", "B+", "AB-", "AB+"]

/-- The blood bonus as the specification words it: 0.3 on exact
recipient/donor equality, else 0.2 when compatible per the ABO/Rh
table, else 0. -/
def spec_blood_bonus (recipient : String) (donor : Option String) : ℚ :=
  match donor with
  | some d =>
    if recipient = d then 0.3
    else if is_blood_type_compatible recipient d then 0.2
    else 0
  | none => 0

/-! Helper lemmas. -/

/-- The comparator used to sort nearest hospitals is transitive. -/
lemma distance_le_trans (a b c : Hospital × DistanceResult)
    (hab : decide (a.2.distance_km ≤ b.2.distance_km) = true)
    (hbc : decide (b.2.distance_km ≤ c.2.distance_km) = true) :
    decide (a.2.distance_km ≤ c.2.distance_km) = true := by
  simp only [decide_eq_true_eq] at *
  exact le_trans hab hbc

/-- The comparator used to sort nearest hospitals is total. -/
lemma distance_le_total (a b : Hospital × DistanceResult) :
    (decide (a.2.distance_km ≤ b.2.distance_km) ||
      decide (b.2.distance_km ≤ a.2.distance_km)) = true := by
  simp only [Bool.or_eq_true, decide_eq_true_eq]
  exact le_total _ _

/-- The filtering loop of `find_nearest_hospitals` builds exactly the
within-radius pairs in input order. -/
lemma filter_loop_eq_within_radius (hav : ℚ → ℚ → ℚ → ℚ → ℚ)
    (u v maxd : ℚ) (hospitals : List Hospital) :
    (hospitals.filterMap (fun hospital =>
        if (calculate_distance hav ⟨u, v⟩
            ⟨hospital.latitude, hospital.longitude⟩).distance_km ≤ maxd then
          some (hospital, calculate_distance hav ⟨u, v⟩
            ⟨hospital.latitude, hospital.longitude⟩)
        else none)) = within_radius hav u v hospitals maxd := by
  unfold within_radius computed_pairs
  induction hospitals with
  | nil => rfl
  | cons h t ih =>
    simp only [List.filterMap_cons, List.map_cons, List.filter_cons]
    by_cases hc : (calculate_distance hav ⟨u, v⟩
        ⟨h.latitude, h.longitude⟩).distance_km ≤ maxd
    · simp [hc, ih]
    · simp [hc, ih]

/-- Function `find_nearest_hospitals` is the stable merge sort of the
within-radius pairs, by ascending distance. -/
lemma find_nearest_eq_mergeSort (hav : ℚ → ℚ → ℚ → ℚ → ℚ)
    (u v : ℚ) (hospitals : List Hospital) (maxd : ℚ) :
    find_nearest_hospitals hav u v hospitals maxd =
      (within_radius hav u v hospitals maxd).mergeSort
        (fun x y => decide (x.2.distance_km ≤ y.2.distance_km)) := by
  show (hospitals.filterMap _).mergeSort _ = _
  rw [filter_loop_eq_within_radius]

/-- No compatibility list contains the empty string. -/
lemma empty_string_not_compatible (recipient : String) :
    is_blood_type_compatible recipient "" = false := by
  unfold is_blood_type_compatible compatible_pairs
  split <;> decide

/-- The condition bonus is between 0 and 0.2. -/
lemma condition_scores_bounds (condition : String) :
    0 ≤ condition_scores condition ∧ condition_scores condition ≤ 0.2 := by
  unfold condition_scores
  split <;> norm_num

/-- Python `int` truncation agrees with `⌊·⌋` on non-negative values. -/
lemma pyInt_eq_floor {q : ℚ} (h : 0 ≤ q) : pyInt q = ⌊q⌋ := if_pos h

/-- Python `int` truncation is non-negative on non-negative values. -/
lemma pyInt_nonneg {q : ℚ} (h : 0 ≤ q) : 0 ≤ pyInt q := by
  rw [pyInt_eq_floor h]
  exact Int.floor_nonneg.mpr h

/-- Every transport-mode speed preset is positive. -/
lemma speed_kmh_pos (transport_mode : String) : 0 < speed_kmh transport_mode := by
  unfold speed_kmh
  split <;> norm_num

/-- Unfolding `table_get` over a cons cell. -/
lemma table_get_cons (k k' : String) (v : NavigationSession) (t : NavTable) :
    table_get k ((k', v) :: t) = if k = k' then some v else table_get k t := rfl

/-- In-place replacement stores the new value at the key. -/
lemma table_get_map_replace (k : String) (v : NavigationSession) :
    ∀ t : NavTable, (table_get k t).isSome = true →
      table_get k (t.map (fun p => if p.1 = k then (k, v) else p)) = some v := by
  intro t
  induction t with
  | nil => intro h; simp [table_get] at h
  | cons p t ih =>
    intro h
    obtain ⟨k', v'⟩ := p
    simp only [List.map_cons]
    by_cases hk : k' = k
    · subst hk
      rw [show (if ((k', v') : String × NavigationSession).1 = k' then (k', v)
          else (k', v')) = (k', v) from by simp]
      rw [table_get_cons, if_pos rfl]
    · have hne : k ≠ k' := fun hh => hk hh.symm
      have h' : (table_get k t).isSome = true := by
        rw [table_get_cons, if_neg hne] at h
        exact h
      rw [show (if ((k', v') : String × NavigationSession).1 = k then (k, v)
          else (k', v')) = (k', v') from by simp [hk]]
      rw [table_get_cons, if_neg hne]
      exact ih h'

/-- In-place replacement at one key leaves every other key unchanged. -/
lemma table_get_map_replace_ne (k q : String) (v : NavigationSession)
    (h : q ≠ k) : ∀ t : NavTable,
      table_get q (t.map (fun p => if p.1 = k then (k, v) else p)) =
        table_get q t := by
  intro t
  induction t with
  | nil => rfl
  | cons p t ih =>
    obtain ⟨k', v'⟩ := p
    simp only [List.map_cons]
    by_cases hk : k' = k
    · subst hk
      rw [show (if ((k', v') : String × NavigationSession).1 = k' then (k', v)
          else (k', v')) = (k', v) from by simp]
      rw [table_get_cons, if_neg h, table_get_cons, if_neg h, ih]
    · rw [show (if ((k', v') : String × NavigationSession).1 = k then (k, v)
          else (k', v')) = (k', v') from by simp [hk]]
      rw [table_get_cons, table_get_cons, ih]

/-- Appending a fresh binding makes it retrievable. -/
lemma table_get_append_self (k : String) (v : NavigationSession) :
    ∀ t : NavTable, table_get k t = none →
      table_get k (t ++ [(k, v)]) = some v := by
  intro t
  induction t with
  | nil => intro _; simp [table_get_cons]
  | cons p t ih =>
    intro h
    obtain ⟨k', v'⟩ := p
    rw [table_get_cons] at h
    by_cases hk : k = k'
    · rw [if_pos hk] at h
      exact absurd h (by simp)
    · rw [if_neg hk] at h
      rw [List.cons_append, table_get_cons, if_neg hk]
      exact ih h

/-- Appending a binding for one key leaves every other key unchanged. -/
lemma table_get_append_ne (k q : String) (v : NavigationSession)
    (h : q ≠ k) : ∀ t : NavTable,
      table_get q (t ++ [(k, v)]) = table_get q t := by
  intro t
  induction t with
  | nil => simp [table_get, table_get_cons, h]
  | cons p t ih =>
    obtain ⟨k', v'⟩ := p
    rw [List.cons_append, table_get_cons, table_get_cons, ih]

/-- Dictionary assignment stores the value at the key. -/
lemma table_get_table_set_self (k : String) (v : NavigationSession)
    (t : NavTable) : table_get k (table_set k v t) = some v := by
  unfold table_set
  by_cases h : (table_get k t).isSome
  · rw [if_pos h]
    exact table_get_map_replace k v t h
  · rw [if_neg h]
    exact table_get_append_self k v t (Option.not_isSome_iff_eq_none.mp h)

/-- Dictionary assignment leaves every other key unchanged. -/
lemma table_get_table_set_ne (k q : String) (v : NavigationSession)
    (t : NavTable) (h : q ≠ k) :
    table_get q (table_set k v t) = table_get q t := by
  unfold table_set
  by_cases hs : (table_get k t).isSome
  · rw [if_pos hs]
    exact table_get_map_replace_ne k q v h t
  · rw [if_neg hs]
    exact table_get_append_ne k q v h t

/-- Assigning to a key that is already present does not grow the
dictionary. -/
lemma table_set_length_of_mem (k : String) (v : NavigationSession)
    (t : NavTable) (h : (table_get k t).isSome = true) :
    (table_set k v t).length = t.length := by
  unfold table_set
  rw [if_pos h]
  exact List.length_map _ _

/-- Unfolds `update_navigation` on a known session id. -/
lemma update_navigation_found (hav : ℚ → ℚ → ℚ → ℚ → ℚ) (t : NavTable)
    (now : ℤ) (id : String) (lat lon : ℚ) (session : NavigationSession)
    (h : table_get id t = some session) :
    update_navigation hav t now id lat lon =
      (.ok id
        (pyRound2 (hav lat lon session.route.end_location.1
          session.route.end_location.2))
        (pyInt (hav lat lon session.route.end_location.1
          session.route.end_location.2 / 50 * 60))
        session.current_step "active",
       table_set id { session with
         last_update := some now
         current_position := some (lat, lon) } t) := by
  unfold update_navigation
  rw [h]
  rfl

/-- Unfolds `update_navigation` on an unknown session id. -/
lemma update_navigation_notfound (hav : ℚ → ℚ → ℚ → ℚ → ℚ) (t : NavTable)
    (now : ℤ) (id : String) (lat lon : ℚ)
    (h : table_get id t = none) :
    update_navigation hav t now id lat lon =
      (.mkError "Navigation session not found", t) := by
  unfold update_navigation
  rw [h]

/-- Unfolds `end_navigation` on a known session id. -/
lemma end_navigation_found (t : NavTable) (now : ℤ) (id : String)
    (session : NavigationSession) (h : table_get id t = some session) :
    end_navigation t now id =
      (.ok id "completed"
        (pyInt (((now : ℚ) - (session.started_at : ℚ)) / 60)),
       table_set id { session with
         status := "completed"
         ended_at := some now } t) := by
  unfold end_navigation
  rw [h]


/-- Unfolds `end_navigation` on an unknown session id. -/
lemma end_navigation_notfound (t : NavTable) (now : ℤ) (id : String)
    (h : table_get id t = none) :
    end_navigation t now id =
      (.mkError "Navigation session not found", t) := by
  unfold end_navigation
  rw [h]

/-- Unfolds `start_navigation`: the timestamp-interpolated session id,
the response, and the table assignment. -/
lemma start_navigation_eq (hav : ℚ → ℚ → ℚ → ℚ → ℚ) (t : NavTable)
    (now : ℤ) (u : String) (a b c d : ℚ) (mode : String) :
    start_navigation hav t now u a b c d mode =
      ({ navigation_id := "nav_" ++ u ++ "_" ++ toString now
         total_distance_km := hav a b c d
         total_duration_minutes := pyInt (hav a b c d / 50 * 60)
         status := "started" },
       table_set ("nav_" ++ u ++ "_" ++ toString now)
         { id := "nav_" ++ u ++ "_" ++ toString now
           user_id := u
           route := get_route hav now a b c d mode
           current_step := 0
           started_at := now
           status := "active"
           last_update := none
           current_position := none
           ended_at := none } t) := rfl

/-- A constant 7 km distance computation used as a test fixture. -/
def hav7 : ℚ → ℚ → ℚ → ℚ → ℚ := fun _ _ _ _ => 7

/-- A concrete active navigation session used as a test fixture. -/
def sample_active_session : NavigationSession :=
  { id := "nav_u_0", user_id := "u",
    route := { start_location := (0, 0), end_location := (1, 1),
               total_distance_km := 7, total_duration_minutes := 8,
               steps := [], transport_mode := "driving",
               estimated_arrival := 480 },
    current_step := 0, started_at := 0, status := "active",
    last_update := none, current_position := none, ended_at := none }

/-- A concrete completed navigation session used as a test fixture. -/
def sample_completed_session : NavigationSession :=
  { sample_active_session with status := "completed", ended_at := some 3 }

/-! Claim theorems. -/

/-- C1: `find_nearest_hospitals` returns exactly the (hospital,
DistanceResult) pairs whose computed distance_km is ≤ max_distance_km
(as a permutation of the within-radius pairs, and every returned pair is
within the radius), sorted ascending by distance_km with ties kept in
original input order, and it returns the empty list when the input list
is empty or no hospital is within the radius. -/
theorem find_nearest_hospitals_spec (hav : ℚ → ℚ → ℚ → ℚ → ℚ)
    (u v : ℚ) (hospitals : List Hospital) (maxd : ℚ) :
    (find_nearest_hospitals hav u v hospitals maxd).Perm
        (within_radius hav u v hospitals maxd)
    ∧ (find_nearest_hospitals hav u v hospitals maxd).Pairwise
        (fun a b => a.2.distance_km ≤ b.2.distance_km)
    ∧ (∀ p ∈ find_nearest_hospitals hav u v hospitals maxd,
        p.2.distance_km ≤ maxd)
    ∧ (∀ a b : Hospital × DistanceResult,
        [a, b].Sublist (within_radius hav u v hospitals maxd) →
        a.2.distance_km = b.2.distance_km →
        [a, b].Sublist (find_nearest_hospitals hav u v hospitals maxd))
    ∧ (hospitals = [] → find_nearest_hospitals hav u v hospitals maxd = [])
    ∧ (within_radius hav u v hospitals maxd = [] →
        find_nearest_hospitals hav u v hospitals maxd = []) := by
  have bridge := find_nearest_eq_mergeSort hav u v hospitals maxd
  have hperm : (find_nearest_hospitals hav u v hospitals maxd).Perm
      (within_radius hav u v hospitals maxd) := by
    rw [bridge]; exact List.mergeSort_perm _ _
  refine ⟨hperm, ?_, ?_, ?_, ?_, ?_⟩
  · rw [bridge]
    have h := List.sorted_mergeSort distance_le_trans distance_le_total
      (within_radius hav u v hospitals maxd)
    exact h.imp (fun hab => by simpa using hab)
  · intro p hp
    have hp' : p ∈ within_radius hav u v hospitals maxd := hperm.mem_iff.mp hp
    have := List.of_mem_filter hp'
    simpa using this
  · intro a b hsub heq
    rw [bridge]
    exact List.pair_sublist_mergeSort distance_le_trans distance_le_total
      (by simpa using le_of_eq heq) hsub
  · intro h
    subst h
    rw [bridge]
    simp [within_radius, computed_pairs]
  · intro h
    rw [bridge, h, List.mergeSort_nil]

/-- Witness for C1 at a concrete input: the empty hospital list yields
the empty result. -/
theorem find_nearest_hospitals_spec_witness :
    find_nearest_hospitals (fun _ _ _ _ => 1) 0 0 [] 500 = [] :=
  (find_nearest_hospitals_spec (fun _ _ _ _ => 1) 0 0 [] 500).2.2.2.2.1 rfl

/-- C2: for every OrganAvailability record and every recipient blood
type, `get_organ_availability_score` returns
min(1.0, 0.5 + blood_bonus + condition_bonus) with the blood bonus as
specified (0.3 exact match, 0.2 compatible, 0 otherwise) and the
condition bonus per the condition table; and for all inputs whatsoever
the result lies in [0, 1]. -/
theorem organ_availability_score_spec :
    (∀ (oa : OrganAvailability) (u : String), u ∈ blood_types →
      get_organ_availability_score oa (some u) =
        min 1 (0.5 + spec_blood_bonus u oa.blood_type +
          condition_scores oa.condition))
    ∧ (∀ (oa : OrganAvailability) (ub : Option String),
        0 ≤ get_organ_availability_score oa ub ∧
          get_organ_availability_score oa ub ≤ 1) := by
  constructor
  · intro oa u hu
    obtain ⟨bt, cond⟩ := oa
    have hu' : u ≠ "" := by
      intro h
      subst h
      exact absurd hu (by decide)
    rcases bt with _ | d
    · show min ((0.5 : ℚ) + condition_scores cond) 1 =
        min 1 (0.5 + spec_blood_bonus u none + condition_scores cond)
      simp only [spec_blood_bonus]
      rw [min_comm]
      norm_num
    · show min ((if u ≠ "" ∧ d ≠ "" then
          if u = d then (0.5 : ℚ) + 0.3
          else if is_blood_type_compatible u d then 0.5 + 0.2
          else 0.5
        else 0.5) + condition_scores cond) 1 =
        min 1 (0.5 + spec_blood_bonus u (some d) + condition_scores cond)
      simp only [spec_blood_bonus]
      by_cases hde : d = ""
      · subst hde
        rw [if_neg (by simp), if_neg (by exact hu'),
          empty_string_not_compatible]
        rw [if_neg (by simp), min_comm]
        norm_num
      · rw [if_pos ⟨hu', hde⟩]
        by_cases heq : u = d
        · rw [if_pos heq, if_pos heq, min_comm]
        · rw [if_neg heq, if_neg heq]
          cases hcomp : is_blood_type_compatible u d
          · rw [if_neg (by simp [hcomp]), if_neg (by simp [hcomp]), min_comm]
            norm_num
          · rw [if_pos (by simp [hcomp]), if_pos (by simp [hcomp]), min_comm]
  · intro oa ub
    obtain ⟨bt, cond⟩ := oa
    have hcond := condition_scores_bounds cond
    constructor
    · refine le_min ?_ (by norm_num)
      rcases ub with _ | u <;> rcases bt with _ | d
      · show (0 : ℚ) ≤ 0.5 + condition_scores cond
        linarith [hcond.1]
      · show (0 : ℚ) ≤ 0.5 + condition_scores cond
        linarith [hcond.1]
      · show (0 : ℚ) ≤ 0.5 + condition_scores cond
        linarith [hcond.1]
      · show (0 : ℚ) ≤ (if u ≠ "" ∧ d ≠ "" then
            if u = d then (0.5 : ℚ) + 0.3
            else if is_blood_type_compatible u d then 0.5 + 0.2
            else 0.5
          else 0.5) + condition_scores cond
        split_ifs <;> linarith [hcond.1]
    · exact min_le_right _ _

/-- Witness for C2 at a concrete input: an exact A+/A+ match on an
excellent-condition organ scores min 1 (0.5 + 0.3 + 0.2). -/
theorem organ_availability_score_spec_witness :
    get_organ_availability_score ⟨some "A+", "excellent"⟩ (some "A+") =
      min 1 (0.5 + spec_blood_bonus "A+" (some "A+") +
        condition_scores "excellent") :=
  organ_availability_score_spec.1 ⟨some "A+", "excellent"⟩ "A+" (by decide)

/-- C6: the haversine great-circle distance is symmetric in its two
coordinate arguments. -/
theorem haversine_distance_symm (lat1 lon1 lat2 lon2 : ℝ) :
    haversine_distance lat1 lon1 lat2 lon2 =
      haversine_distance lat2 lon2 lat1 lon1 := by
  have hsin : ∀ x y : ℝ,
      Real.sin ((x - y) / 2) ^ 2 = Real.sin ((y - x) / 2) ^ 2 := by
    intro x y
    rw [show (x - y) / 2 = -((y - x) / 2) by ring, Real.sin_neg]
    ring
  simp only [haversine_distance]
  rw [hsin (radians lat2) (radians lat1), hsin (radians lon2) (radians lon1),
    mul_comm (Real.cos (radians lat1)) (Real.cos (radians lat2))]

/-- C3: the emergency route's duration is floor(0.8 × the standard
route's duration), hence ≤ the standard duration; each step's duration
is floor(0.8 × the standard step duration); the transport mode is
"emergency"; and the reported time saved is the standard duration minus
the emergency duration.  (The haversine output is non-negative, hence
the hypothesis on `hav`.) -/
theorem emergency_route_spec (hav : ℚ → ℚ → ℚ → ℚ → ℚ) (now : ℤ)
    (ulat ulon hlat hlon : ℚ) (h : 0 ≤ hav ulat ulon hlat hlon) :
    (get_emergency_route hav now ulat ulon hlat hlon).total_duration_minutes =
      ⌊((get_route hav now ulat ulon hlat hlon
          "driving").total_duration_minutes : ℚ) * 0.8⌋
    ∧ (get_emergency_route hav now ulat ulon hlat hlon).total_duration_minutes ≤
      (get_route hav now ulat ulon hlat hlon "driving").total_duration_minutes
    ∧ (get_emergency_route hav now ulat ulon hlat hlon).transport_mode =
      "emergency"
    ∧ (get_emergency_route hav now ulat ulon hlat hlon).estimated_time_saved =
      (get_route hav now ulat ulon hlat hlon "driving").total_duration_minutes -
      (get_emergency_route hav now ulat ulon hlat hlon).total_duration_minutes
    ∧ (get_emergency_route hav now ulat ulon hlat hlon).steps =
      (get_route hav now ulat ulon hlat hlon "driving").steps.map (fun step =>
        { step with duration_seconds := ⌊(step.duration_seconds : ℚ) * 0.8⌋ }) := by
  have hd : (0 : ℚ) ≤ hav ulat ulon hlat hlon / 50 * 60 :=
    mul_nonneg (div_nonneg h (by norm_num)) (by norm_num)
  have hstd : (get_route hav now ulat ulon hlat hlon
      "driving").total_duration_minutes = pyInt (hav ulat ulon hlat hlon / 50 * 60) :=
    rfl
  have hn : (0 : ℤ) ≤ pyInt (hav ulat ulon hlat hlon / 50 * 60) := pyInt_nonneg hd
  have hem : (get_emergency_route hav now ulat ulon hlat hlon).total_duration_minutes =
      pyInt ((pyInt (hav ulat ulon hlat hlon / 50 * 60) : ℚ) * 0.8) := rfl
  have h08 : (0 : ℚ) ≤ (pyInt (hav ulat ulon hlat hlon / 50 * 60) : ℚ) * 0.8 :=
    mul_nonneg (by exact_mod_cast hn) (by norm_num)
  refine ⟨?_, ?_, rfl, rfl, ?_⟩
  · rw [hem, hstd, pyInt_eq_floor h08]
  · rw [hem, hstd, pyInt_eq_floor h08]
    calc ⌊(pyInt (hav ulat ulon hlat hlon / 50 * 60) : ℚ) * 0.8⌋
        ≤ ⌊(pyInt (hav ulat ulon hlat hlon / 50 * 60) : ℚ)⌋ := by
          apply Int.floor_le_floor
          nlinarith [hn]
      _ = pyInt (hav ulat ulon hlat hlon / 50 * 60) := Int.floor_intCast _
  · have hsd : (0 : ℚ) ≤ hav ulat ulon hlat hlon * 0.5 * 1000 / 1000 * 60 := by
      positivity
    have hstep : (0 : ℤ) ≤ pyInt (hav ulat ulon hlat hlon * 0.5 * 1000 / 1000 * 60) :=
      pyInt_nonneg hsd
    have hstep8 : (0 : ℚ) ≤
        (pyInt (hav ulat ulon hlat hlon * 0.5 * 1000 / 1000 * 60) : ℚ) * 0.8 :=
      mul_nonneg (by exact_mod_cast hstep) (by norm_num)
    show (create_simplified_route_steps ulat ulon hlat hlon
        (hav ulat ulon hlat hlon)).map (fun step : RouteStep =>
          ({ step with duration_seconds := pyInt ((step.duration_seconds : ℚ) * 0.8) } : RouteStep)) =
      (create_simplified_route_steps ulat ulon hlat hlon
        (hav ulat ulon hlat hlon)).map (fun step : RouteStep =>
          ({ step with duration_seconds := ⌊(step.duration_seconds : ℚ) * 0.8⌋ } : RouteStep))
    simp only [create_simplified_route_steps, List.map_cons, List.map_nil]
    rw [pyInt_eq_floor hstep8]

/-- Witness for C3 at a concrete input (constant distance 100 km): the
emergency duration is floor(0.8 × 120) = 96 minutes. -/
theorem emergency_route_spec_witness :
    (get_emergency_route (fun _ _ _ _ => 100) 0 0 0 1 1).total_duration_minutes =
      ⌊((get_route (fun _ _ _ _ => 100) 0 0 0 1 1
          "driving").total_duration_minutes : ℚ) * 0.8⌋ :=
  (emergency_route_spec (fun _ _ _ _ => 100) 0 0 0 1 1 (by norm_num)).1

/-- C4 counterexample: the claim that `get_route`'s duration uses the
mode-dependent preset speed fails at transport mode "walking" with a
50 km distance: the code reports floor(50/50×60) = 60 minutes, not
floor(50/5×60) = 600 minutes. -/
theorem get_route_mode_speed_cex :
    ¬ ((get_route (fun _ _ _ _ => 50) 0 0 0 1 1
        "walking").total_duration_minutes =
      ⌊(50 : ℚ) / speed_kmh "walking" * 60⌋) := by
  have h1 : (get_route (fun _ _ _ _ => 50) 0 0 0 1 1
      "walking").total_duration_minutes = pyInt ((50 : ℚ) / 50 * 60) := rfl
  have h2 : ((50 : ℚ) / 50 * 60) = ((60 : ℤ) : ℚ) := by norm_num
  have h3 : ((50 : ℚ) / speed_kmh "walking" * 60) = ((600 : ℤ) : ℚ) := by
    norm_num [show speed_kmh "walking" = 5 from rfl]
  rw [h1, h2, h3, pyInt_eq_floor (by norm_num), Int.floor_intCast,
    Int.floor_intCast]
  norm_num

/-- C4 amended: `get_route`'s total_duration_minutes equals
floor(distance_km / 50 × 60) for every transport mode — the fixed
50 km/h driving speed — while the mode-dependent presets (driving=50,
walking=5, cycling=15, public_transport=30, default 50) are used by
`calculate_route_time`, which `get_route` does not call. -/
theorem get_route_fixed_speed (hav : ℚ → ℚ → ℚ → ℚ → ℚ) (now : ℤ)
    (a b c d : ℚ) (mode : String) (h : 0 ≤ hav a b c d) :
    (get_route hav now a b c d mode).total_duration_minutes =
      ⌊hav a b c d / 50 * 60⌋
    ∧ (calculate_route_time hav a b c d mode).estimated_travel_time_minutes =
      ⌊hav a b c d / speed_kmh mode * 60⌋ := by
  constructor
  · show pyInt (hav a b c d / 50 * 60) = _
    exact pyInt_eq_floor (mul_nonneg (div_nonneg h (by norm_num)) (by norm_num))
  · show pyInt (hav a b c d / speed_kmh mode * 60) = _
    exact pyInt_eq_floor (mul_nonneg
      (div_nonneg h (le_of_lt (speed_kmh_pos mode))) (by norm_num))

/-- Witness for the amended C4 at a concrete input: a 100 km trip takes
floor(100/50×60) = 120 minutes whatever the requested mode. -/
theorem get_route_fixed_speed_witness :
    (get_route (fun _ _ _ _ => 100) 0 0 0 1 1 "walking").total_duration_minutes =
      ⌊(100 : ℚ) / 50 * 60⌋ :=
  (get_route_fixed_speed (fun _ _ _ _ => 100) 0 0 0 1 1 "walking" (by norm_num)).1

/-- C5: the route built by `get_route` has exactly the two steps of the
midpoint interpolation — step 1 from the start to the arithmetic
midpoint and step 2 from the midpoint to the end — each carrying
total_distance_km × 0.5 × 1000 meters and duration
floor(step_distance_meters / 1000 × 60); consequently the first step's
start is the route start and the last step's end is the route end. -/
theorem route_steps_spec (hav : ℚ → ℚ → ℚ → ℚ → ℚ) (now : ℤ)
    (slat slon elat elon : ℚ) (mode : String)
    (h : 0 ≤ hav slat slon elat elon) :
    (get_route hav now slat slon elat elon mode).steps =
      [ { instruction := "Start navigation to destination"
          distance_meters := (get_route hav now slat slon elat elon
            mode).total_distance_km * 0.5 * 1000
          duration_seconds := ⌊(get_route hav now slat slon elat elon
            mode).total_distance_km * 0.5 * 1000 / 1000 * 60⌋
          start_location := (slat, slon)
          end_location := ((slat + elat) / 2, (slon + elon) / 2) },
        { instruction := "Continue to hospital destination"
          distance_meters := (get_route hav now slat slon elat elon
            mode).total_distance_km * 0.5 * 1000
          duration_seconds := ⌊(get_route hav now slat slon elat elon
            mode).total_distance_km * 0.5 * 1000 / 1000 * 60⌋
          start_location := ((slat + elat) / 2, (slon + elon) / 2)
          end_location := (elat, elon) } ]
    ∧ ((get_route hav now slat slon elat elon mode).steps.head?).map
        RouteStep.start_location =
      some (get_route hav now slat slon elat elon mode).start_location
    ∧ ((get_route hav now slat slon elat elon mode).steps.getLast?).map
        RouteStep.end_location =
      some (get_route hav now slat slon elat elon mode).end_location := by
  have hsd : (0 : ℚ) ≤ hav slat slon elat elon * 0.5 * 1000 / 1000 * 60 := by
    positivity
  have hsteps : (get_route hav now slat slon elat elon mode).steps =
      create_simplified_route_steps slat slon elat elon
        (hav slat slon elat elon) := rfl
  have htd : (get_route hav now slat slon elat elon mode).total_distance_km =
      hav slat slon elat elon := rfl
  refine ⟨?_, rfl, rfl⟩
  rw [hsteps, htd]
  simp only [create_simplified_route_steps]
  rw [pyInt_eq_floor hsd]

/-- Witness for C5 at a concrete input: the first step of a route with
constant distance 100 km starts at the route start. -/
theorem route_steps_spec_witness :
    ((get_route (fun _ _ _ _ => 100) 0 0 0 4 6 "driving").steps.head?).map
        RouteStep.start_location =
      some (get_route (fun _ _ _ _ => 100) 0 0 0 4 6
        "driving").start_location :=
  (route_steps_spec (fun _ _ _ _ => 100) 0 0 0 4 6 "driving" (by norm_num)).2.1

/-- C7: for every session id absent from the session table,
`update_navigation` and `end_navigation` each return the structured
error payload "Navigation session not found" (the model is total, so no
exception can escape), and they return an error if and only if the id
is unknown. -/
theorem unknown_session_error_spec (hav : ℚ → ℚ → ℚ → ℚ → ℚ) (t : NavTable)
    (now : ℤ) (id : String) (lat lon : ℚ) :
    ((update_navigation hav t now id lat lon).1.isErr = true ↔
      table_get id t = none)
    ∧ (table_get id t = none →
        (update_navigation hav t now id lat lon).1 =
          .mkError "Navigation session not found")
    ∧ ((end_navigation t now id).1.isErr = true ↔ table_get id t = none)
    ∧ (table_get id t = none →
        (end_navigation t now id).1 =
          .mkError "Navigation session not found") := by
  rcases h : table_get id t with _ | session
  · rw [update_navigation_notfound hav t now id lat lon h,
      end_navigation_notfound t now id h]
    refine ⟨by simp [UpdateResult.isErr], fun _ => rfl,
      by simp [EndResult.isErr], fun _ => rfl⟩
  · rw [update_navigation_found hav t now id lat lon session h,
      end_navigation_found t now id session h]
    refine ⟨by simp [UpdateResult.isErr], fun hc => absurd hc (by simp),
      by simp [EndResult.isErr], fun hc => absurd hc (by simp)⟩

/-- Witness for C7 at a concrete input: updating and ending on the
empty session table report the not-found error payload. -/
theorem unknown_session_error_spec_witness :
    (update_navigation (fun _ _ _ _ => 1) [] 0 "nav_x" 0 0).1 =
      .mkError "Navigation session not found" :=
  (unknown_session_error_spec (fun _ _ _ _ => 1) [] 0 "nav_x" 0 0).2.1 rfl

/-- C8: on an existing session, `update_navigation` changes only the
session's last_update and current_position fields (route, current_step,
status, user_id, started_at are unchanged, and all other sessions are
untouched), returns the stored (unchanged) current_step, and reports as
remaining distance the Distance Engine distance from the supplied
current position to the route's end point. -/
theorem update_navigation_frame_spec (hav : ℚ → ℚ → ℚ → ℚ → ℚ)
    (t : NavTable) (now : ℤ) (id : String) (lat lon : ℚ)
    (session : NavigationSession) (h : table_get id t = some session) :
    (update_navigation hav t now id lat lon).1 =
      .ok id
        (pyRound2 (hav lat lon session.route.end_location.1
          session.route.end_location.2))
        (pyInt (hav lat lon session.route.end_location.1
          session.route.end_location.2 / 50 * 60))
        session.current_step "active"
    ∧ table_get id (update_navigation hav t now id lat lon).2 =
        some { session with
          last_update := some now
          current_position := some (lat, lon) }
    ∧ (∀ k, k ≠ id →
        table_get k (update_navigation hav t now id lat lon).2 =
          table_get k t) := by
  rw [update_navigation_found hav t now id lat lon session h]
  refine ⟨rfl, ?_, ?_⟩
  · exact table_get_table_set_self id _ t
  · intro k hk
    exact table_get_table_set_ne id k _ t hk

/-- Witness for C8 at a concrete input: updating a stored session
returns the stored current_step (0) and status "active". -/
theorem update_navigation_frame_spec_witness :
    (update_navigation hav7
      [("nav_u_0", sample_active_session)] 5 "nav_u_0" 2 2).1 =
      .ok "nav_u_0"
        (pyRound2 (hav7 2 2 sample_active_session.route.end_location.1
          sample_active_session.route.end_location.2))
        (pyInt (hav7 2 2 sample_active_session.route.end_location.1
          sample_active_session.route.end_location.2 / 50 * 60))
        sample_active_session.current_step "active" :=
  (update_navigation_frame_spec hav7
    [("nav_u_0", sample_active_session)] 5 "nav_u_0" 2 2
    sample_active_session rfl).1

/-- C9 (code bug): the session id depends only on the user id and the
clock reading, so two start calls made by the same user at the same
clock timestamp produce the SAME navigation id, and the second call
overwrites the first session instead of adding a new one (the table
does not grow). -/
theorem start_navigation_id_collision (hav : ℚ → ℚ → ℚ → ℚ → ℚ)
    (t : NavTable) (now : ℤ) (u : String) (a b c d a2 b2 c2 d2 : ℚ)
    (mode mode2 : String) :
    (start_navigation hav t now u a b c d mode).1.navigation_id =
      (start_navigation hav (start_navigation hav t now u a b c d mode).2
        now u a2 b2 c2 d2 mode2).1.navigation_id
    ∧ ((start_navigation hav (start_navigation hav t now u a b c d mode).2
        now u a2 b2 c2 d2 mode2).2).length =
      ((start_navigation hav t now u a b c d mode).2).length := by
  constructor
  · rfl
  · rw [start_navigation_eq hav
      (start_navigation hav t now u a b c d mode).2 now u a2 b2 c2 d2 mode2]
    apply table_set_length_of_mem
    rw [start_navigation_eq hav t now u a b c d mode]
    rw [table_get_table_set_self]
    rfl

/-- C10: on a session whose stored status is "completed",
`update_navigation` still succeeds: it is not an error, the response
reports status "active" regardless of the stored status, last_update and
current_position are overwritten on the stored session, and the stored
status remains "completed". -/
theorem completed_session_update_spec (hav : ℚ → ℚ → ℚ → ℚ → ℚ)
    (t : NavTable) (now : ℤ) (id : String) (lat lon : ℚ)
    (session : NavigationSession) (h : table_get id t = some session)
    (hs : session.status = "completed") :
    (update_navigation hav t now id lat lon).1.isErr = false
    ∧ (update_navigation hav t now id lat lon).1 =
      .ok id
        (pyRound2 (hav lat lon session.route.end_location.1
          session.route.end_location.2))
        (pyInt (hav lat lon session.route.end_location.1
          session.route.end_location.2 / 50 * 60))
        session.current_step "active"
    ∧ table_get id (update_navigation hav t now id lat lon).2 =
        some { session with
          last_update := some now
          current_position := some (lat, lon) }
    ∧ ({ session with
          last_update := some now
          current_position := some (lat, lon) } : NavigationSession).status =
        "completed" := by
  rw [update_navigation_found hav t now id lat lon session h]
  refine ⟨rfl, rfl, ?_, ?_⟩
  · exact table_get_table_set_self id _ t
  · exact hs

/-- Witness for C10 at a concrete input: updating a completed session
still reports status "active". -/
theorem completed_session_update_spec_witness :
    (update_navigation hav7
      [("nav_u_0", sample_completed_session)] 5 "nav_u_0" 2 2).1 =
      .ok "nav_u_0"
        (pyRound2 (hav7 2 2 sample_completed_session.route.end_location.1
          sample_completed_session.route.end_location.2))
        (pyInt (hav7 2 2 sample_completed_session.route.end_location.1
          sample_completed_session.route.end_location.2 / 50 * 60))
        sample_completed_session.current_step "active" :=
  (completed_session_update_spec hav7
    [("nav_u_0", sample_completed_session)] 5 "nav_u_0" 2 2
    sample_completed_session rfl rfl).2.1

end OrganGeo
